import Mathlib

/-!
Verification development for the file-upload backend in `src/app.py`
(Flask + SQLAlchemy, files stored as database blob columns).

The endpoints relevant to the claims are embedded as pure Lean functions:
the database session is modelled as an explicit value (a list of rows, plus
a fresh-id counter where the table has an autoincrement primary key), each
route handler becomes a function from the store and the request parameters
to a response value and the updated store, and byte payloads are `List Nat`.
Python falsiness of optional strings/bytes is modelled explicitly
(`none` or empty means falsy).
-/

namespace Vincent

/-- Byte payloads: a byte string is a list of byte values. -/
abbrev Bytes := List Nat

/-- A multipart upload as seen by `request.files[...]`: a client-supplied
filename, an optional client-supplied mime type, and the payload bytes. -/
structure UploadFile where
  filename : String
  mimetype : Option String
  bytes : Bytes
deriving Repr, DecidableEq

/-! ### werkzeug.utils.secure_filename (POSIX, ASCII fragment)

`secure_filename` does, in order: NFKD-normalize and drop non-ASCII
characters (on ASCII input this is just the drop), replace `os.sep` (`/`)
by a space, `"_".join(name.split())`, delete every character outside
`[A-Za-z0-9_.-]`, and finally `strip("._")`.  The Windows device-name
branch is dead on POSIX and is omitted. -/

/-- Characters kept by werkzeug's `_filename_ascii_strip_re` (the regex
deletes everything outside `[A-Za-z0-9_.-]`). -/
def isAllowedFilenameChar (c : Char) : Bool :=
  c.isAlpha || c.isDigit || c == '_' || c == '.' || c == '-'

/-- Python `str.split()` whitespace set. -/
def isPyWhitespace (c : Char) : Bool :=
  c == ' ' || c == '\t' || c == '\n' || c == '\r' || c == '\x0b' || c == '\x0c'

/-- Helper for Python `str.split()` with no argument: split on whitespace
runs, discarding empty pieces. `acc` holds the current word reversed. -/
def splitWsAux : List Char → List Char → List (List Char)
  | [], acc => if acc.isEmpty then [] else [acc.reverse]
  | c :: rest, acc =>
    if isPyWhitespace c then
      if acc.isEmpty then splitWsAux rest [] else acc.reverse :: splitWsAux rest []
    else
      splitWsAux rest (c :: acc)

/-- Python `str.split()` (no separator argument). -/
def pySplit (l : List Char) : List (List Char) := splitWsAux l []

/-- Python `"_".join(words)`. -/
def joinUnderscore : List (List Char) → List Char
  | [] => []
  | [w] => w
  | w :: ws => w ++ '_' :: joinUnderscore ws

/-- Membership in the strip set of `strip("._")`. -/
def isDotOrUnderscore (c : Char) : Bool := c == '.' || c == '_'

/-- Python `str.strip("._")`: remove leading and trailing `.`/`_`. -/
def stripDotUnderscore (l : List Char) : List Char :=
  ((l.dropWhile isDotOrUnderscore).reverse.dropWhile isDotOrUnderscore).reverse

/-- Embedding of `werkzeug.utils.secure_filename` on POSIX.  On ASCII
input the NFKD/ascii-encode step is the identity; non-ASCII characters
are dropped (the model does not reproduce NFKD decomposition of accented
letters, which no claim depends on). -/
def secure_filename (s : String) : String :=
  let ascii := s.data.filter (fun c => c.toNat < 128)
  let noSep := ascii.map (fun c => if c == '/' then ' ' else c)
  let joined := joinUnderscore (pySplit noSep)
  let kept := joined.filter isAllowedFilenameChar
  String.mk (stripDotUnderscore kept)

/-- The argument accepted by `safe_filename` in `app.py`: `None` (or any
falsy object), a plain string, or a file object carrying a `.filename`
attribute. -/
inductive FileArg
  | absent
  | str (s : String)
  | fileObj (filename : String)
deriving Repr, DecidableEq

/-- The name `safe_filename` would extract from its argument
(`getattr(file_obj, "filename", file_obj)`, with `None`/falsy mapped
to the empty string by the `name or ""` guard). -/
def FileArg.name : FileArg → String
  | absent => ""
  | str s => s
  | fileObj f => f

/-- Embedding of `safe_filename` (app.py lines 214-218):
`if not file_obj: return ""` — a falsy argument (None, or the empty
string) yields `""`; otherwise the extracted name is passed to
`secure_filename`. -/
def safe_filename : FileArg → String
  | .absent => ""
  | .str s => if s = "" then "" else secure_filename s
  | .fileObj f => secure_filename f

/-! ### mimetypes.guess_type and guess_mimetype -/

/-- The lowercased extension after the last dot, if any. -/
def lowerExt (s : String) : Option String :=
  if s.data.contains '.' then
    some (String.mk (((s.data.reverse.takeWhile (fun c => c != '.')).reverse).map Char.toLower))
  else
    none

/-- Model of Python `mimetypes.guess_type`, restricted to a table of
common single extensions (the standard map entries the claims exercise);
any other extension maps to `none`. -/
def mimetypes_guess_type (filename : String) : Option String :=
  match lowerExt filename with
  | some "pdf" => some "application/pdf"
  | some "png" => some "image/png"
  | some "jpg" => some "image/jpeg"
  | some "jpeg" => some "image/jpeg"
  | some "gif" => some "image/gif"
  | some "txt" => some "text/plain"
  | some "html" => some "text/html"
  | some "zip" => some "application/zip"
  | some "doc" => some "application/msword"
  | _ => none

/-- Embedding of `guess_mimetype(filename, fallback=None)` — the last of
the three competing definitions in `app.py` (lines 831-838), which is the
one bound when any route handler runs: a falsy filename yields the
fallback or `application/octet-stream`; otherwise the guessed type, the
fallback, or `application/octet-stream`, in that order. -/
def guess_mimetype (filename : Option String) (fallback : Option String) : String :=
  match filename with
  | none => fallback.getD "application/octet-stream"
  | some f =>
    if f = "" then fallback.getD "application/octet-stream"
    else
      match mimetypes_guess_type f with
      | some m => m
      | none => fallback.getD "application/octet-stream"

/-! ### UserCV table and its CRUD routes (upload_cv, serve_cv, delete_cv)

The `user_cv` table has an autoincrement integer primary key; the store is
modelled as a list of `(id, row)` pairs plus the next fresh id.  A freshly
inserted row is prepended; lookups (`UserCV.query.get`) find the row whose
primary key matches. -/

/-- A row of the `user_cv` table as written by `upload_cv`: the owner key,
the `secure_filename`-sanitized filename and the raw payload bytes. -/
structure UserCVRec where
  user_code : String
  filename : String
  file_data : Bytes
deriving Repr, DecidableEq

/-- The `user_cv` table state: rows keyed by the integer primary key, plus
the next autoincrement id. -/
structure CVStore where
  rows : List (Nat × UserCVRec)
  nextId : Nat
deriving Repr, DecidableEq

/-- Outcome of an upload route: a 400 with a message, a 201 with the new
row id, or a 500 after a rollback (`except: db.session.rollback(); 500`). -/
inductive UploadResult
  | badRequest (msg : String)
  | created (id : Nat)
  | serverError
deriving Repr, DecidableEq

/-- `UserCV.query.get(cv_id)`: the row with the given primary key. -/
def cvLookup (s : CVStore) (i : Nat) : Option UserCVRec :=
  (s.rows.find? (fun p => p.1 == i)).map (fun p => p.2)

/-- Embedding of `upload_cv` (app.py lines 314-338).  `user_code` is the
(optional) form field; a falsy value is rejected with 400, as are a
missing file and an empty filename.  Otherwise the sanitized filename and
the payload are inserted and committed.  `commitOk = false` models the
write/commit raising: the handler's `except` branch rolls the session
back (store unchanged) and returns a 500 error response. -/
def upload_cv (s : CVStore) (user_code : Option String) (file : Option UploadFile)
    (commitOk : Bool) : UploadResult × CVStore :=
  match user_code with
  | none => (.badRequest "user_code is required", s)
  | some uc =>
    if uc = "" then (.badRequest "user_code is required", s)
    else
      match file with
      | none => (.badRequest "No file uploaded", s)
      | some f =>
        if f.filename = "" then (.badRequest "Filename missing", s)
        else if commitOk then
          let row : UserCVRec := ⟨uc, secure_filename f.filename, f.bytes⟩
          (.created s.nextId, ⟨(s.nextId, row) :: s.rows, s.nextId + 1⟩)
        else
          (.serverError, s)

/-- Outcome of a serve/view route: a 404, or a `send_file` response with
payload bytes, mimetype, disposition and suggested download name. -/
inductive ServeResult
  | notFound
  | file (bytes : Bytes) (mimetype : String) (asAttachment : Bool) (downloadName : Option String)
deriving Repr, DecidableEq

/-- Embedding of `serve_cv` (app.py lines 251-257): look the row up by id;
404 when absent, else `send_file` of the stored bytes with the guessed
mimetype, always as an attachment. -/
def serve_cv (s : CVStore) (i : Nat) : ServeResult :=
  match cvLookup s i with
  | none => .notFound
  | some doc => .file doc.file_data (guess_mimetype (some doc.filename) none) true (some doc.filename)

/-- Outcome of `delete_cv`: 404, success, or 500 (not modelled further). -/
inductive DeleteResult
  | notFound
  | deleted
deriving Repr, DecidableEq

/-- Embedding of `delete_cv` (app.py lines 288-304): 404 when the row is
absent, else the row is deleted from the session and committed. -/
def delete_cv (s : CVStore) (i : Nat) : DeleteResult × CVStore :=
  match cvLookup s i with
  | none => (.notFound, s)
  | some _ => (.deleted, ⟨s.rows.filter (fun p => p.1 != i), s.nextId⟩)

/-! ### firm_images table and its routes (upload_images, get_images, serve_image)

These routes use raw psycopg2 SQL; the table's rows are modelled as a plain
list (the serial id is never read by these routes). -/

/-- A row of the `firm_images` table as written by `upload_images`. -/
structure FirmImageRec where
  user_code : String
  file_path : String
  image_data : Bytes
deriving Repr, DecidableEq

/-- SQL `LIKE` matching with `%` (any run) and `_` (any one character)
wildcards, computed with explicit fuel.  Each recursive step shortens
`pattern ++ string` by at least one character, so fuel
`pattern.length + string.length + 1` always suffices. -/
def likeMatchFuel : Nat → List Char → List Char → Bool
  | 0, _, _ => false
  | _ + 1, [], [] => true
  | _ + 1, [], _ :: _ => false
  | k + 1, '%' :: ps, s =>
    likeMatchFuel k ps s ||
      (match s with
       | [] => false
       | _ :: tail => likeMatchFuel k ('%' :: ps) tail)
  | k + 1, '_' :: ps, s =>
    (match s with
     | [] => false
     | _ :: tail => likeMatchFuel k ps tail)
  | k + 1, p :: ps, s =>
    (match s with
     | [] => false
     | c :: tail => (p == c) && likeMatchFuel k ps tail)

/-- SQL `LIKE`: does `s` match `pattern`? -/
def likeMatch (pattern s : List Char) : Bool :=
  likeMatchFuel (pattern.length + s.length + 1) pattern s

/-- The `WHERE user_code = %s AND file_path LIKE %s` predicate of
`serve_image`, with the pattern `'%' + filename`. -/
def imageMatches (uc fn : String) (r : FirmImageRec) : Bool :=
  r.user_code == uc && likeMatch ('%' :: fn.data) r.file_path.data

/-- Outcome of `serve_image`.  `invalidPath` is the spec's `InvalidPath`
error from its error taxonomy; the theorems show the code never produces
it. -/
inductive ImageResult
  | ok (bytes : Bytes) (mimetype : String)
  | notFound
  | invalidPath
deriving Repr, DecidableEq

/-- Embedding of `serve_image` (app.py lines 801-825): select the first
row (`LIMIT 1`) of this owner whose `file_path` ends with (LIKE-matches)
the requested filename; 404 when none, else the blob served inline as
`image/jpeg`.  No path normalization or traversal check is performed. -/
def serve_image (db : List FirmImageRec) (uc fn : String) : ImageResult :=
  match db.find? (imageMatches uc fn) with
  | none => .notFound
  | some r => .ok r.image_data "image/jpeg"

/-- Outcome of `upload_images`: 400, or 200 with the stored file paths. -/
inductive ImagesUploadResult
  | badRequest (msg : String)
  | ok (file_paths : List String)
deriving Repr, DecidableEq

/-- The handle `upload_images` generates for the image at (1-based)
position `idx` of a single request: `wil-firm-pics/<user_code>/image_<idx>.jpg`.
The index restarts at 1 on every request. -/
def imagePath (uc : String) (idx : Nat) : String :=
  "wil-firm-pics/" ++ uc ++ "/image_" ++ toString idx ++ ".jpg"

/-- The rows built by `upload_images`'s `for index, image_file in
enumerate(images, start=1)` loop. -/
def imageRecords (uc : String) : List Bytes → Nat → List FirmImageRec
  | [], _ => []
  | d :: rest, idx => ⟨uc, imagePath uc idx, d⟩ :: imageRecords uc rest (idx + 1)

/-- Embedding of `upload_images` (app.py lines 742-772): reject a falsy
`user_code` or an empty image list with 400; otherwise insert one row per
image with the per-request indexed path and return the paths. -/
def upload_images (db : List FirmImageRec) (user_code : Option String)
    (images : List Bytes) : ImagesUploadResult × List FirmImageRec :=
  match user_code with
  | none => (.badRequest "Missing user_code or images", db)
  | some uc =>
    if uc = "" || images.isEmpty then (.badRequest "Missing user_code or images", db)
    else
      let records := imageRecords uc images 1
      (.ok (records.map (fun r => r.file_path)), db ++ records)

/-- The rows read by `get_images`'s
`SELECT file_path FROM firm_images WHERE user_code = %s`. -/
def get_images_rows (db : List FirmImageRec) (uc : String) : List FirmImageRec :=
  db.filter (fun r => r.user_code == uc)

/-- Python `os.path.basename`: the part after the last `/`. -/
def basename (s : String) : String :=
  String.mk ((s.data.reverse.takeWhile (fun c => c != '/')).reverse)

/-- Embedding of `get_images` (app.py lines 775-798): URLs built from the
basenames of this owner's stored file paths. -/
def get_images (db : List FirmImageRec) (uc : String) (baseUrl : String) : List String :=
  (get_images_rows db uc).map
    (fun r => baseUrl ++ "/serve-image/" ++ uc ++ "/" ++ basename r.file_path)

/-! ### Submissions and assignments (view_submission, serve_submission_file,
serve_assignment_file) -/

/-- A row of the `submissions` table (the fields these routes read;
`filename` and `file_data` are nullable columns). -/
structure SubmissionRec where
  assignment_id : String
  user_code : String
  filename : Option String
  file_data : Option Bytes
deriving Repr, DecidableEq

/-- `Submission.query.get(submission_id)`. -/
def subLookup (db : List (Nat × SubmissionRec)) (i : Nat) : Option SubmissionRec :=
  (db.find? (fun p => p.1 == i)).map (fun p => p.2)

/-- Python falsiness of a nullable blob column: `not x` is true for
`None` and for the empty byte string. -/
def dataFalsy : Option Bytes → Bool
  | none => true
  | some b => b.isEmpty

/-- The `viewable_types` policy list of `view_submission` (app.py lines
417-422). -/
def viewable_types : List String :=
  ["application/pdf", "image/png", "image/jpeg", "image/jpg", "image/gif",
   "text/plain", "text/html"]

/-- Embedding of `view_submission` (app.py lines 404-430): 404 when the
row is absent or its payload is falsy; otherwise `send_file` with
`as_attachment = mimetype not in viewable_types`. -/
def view_submission (db : List (Nat × SubmissionRec)) (i : Nat) : ServeResult :=
  match subLookup db i with
  | none => .notFound
  | some sub =>
    if dataFalsy sub.file_data then .notFound
    else
      let mt := guess_mimetype sub.filename none
      .file (sub.file_data.getD []) mt (!(viewable_types.contains mt)) sub.filename

/-- Embedding of `serve_submission_file` (app.py lines 724-730): 404 when
the row is absent or its payload is falsy; otherwise an attachment. -/
def serve_submission_file (db : List (Nat × SubmissionRec)) (i : Nat) : ServeResult :=
  match subLookup db i with
  | none => .notFound
  | some s =>
    if dataFalsy s.file_data then .notFound
    else .file (s.file_data.getD []) (guess_mimetype s.filename none) true s.filename

/-- A row of the `assignments` table (string primary key; the fields
`serve_assignment_file` reads). -/
structure AssignmentRec where
  lecture_id : String
  title : String
  file_filename : Option String
  file_data : Option Bytes
deriving Repr, DecidableEq

/-- `Assignment.query.get(assignment_id)`. -/
def asgLookup (db : List (String × AssignmentRec)) (i : String) : Option AssignmentRec :=
  (db.find? (fun p => p.1 == i)).map (fun p => p.2)

/-- Embedding of `serve_assignment_file` (app.py lines 589-595): 404 when
the row is absent or its payload is falsy; otherwise an attachment. -/
def serve_assignment_file (db : List (String × AssignmentRec)) (i : String) : ServeResult :=
  match asgLookup db i with
  | none => .notFound
  | some a =>
    if dataFalsy a.file_data then .notFound
    else .file (a.file_data.getD []) (guess_mimetype a.file_filename none) true a.file_filename

/-! ### firm_proofs table (upload_firm_proof) -/

/-- A row of the `firm_proofs` table as written by `upload_firm_proof`. -/
structure FirmProofRec where
  user_code : String
  original_filename : Option String
  file_path : String
  mime_type : Option String
  file_data : Bytes
deriving Repr, DecidableEq

/-- The `firm_proofs` table state: rows keyed by the integer primary key,
plus the next autoincrement id. -/
structure FPStore where
  rows : List (Nat × FirmProofRec)
  nextId : Nat
deriving Repr, DecidableEq

/-- Python `str.strip()` (no argument): strip whitespace from both ends. -/
def pyStripWs (s : String) : String :=
  String.mk (((s.data.dropWhile isPyWhitespace).reverse.dropWhile isPyWhitespace).reverse)

/-- The mime value `file.mimetype or guess_mimetype(original_fn)` stored
by `upload_firm_proof` (a falsy client mimetype falls back to the guess). -/
def firmProofMime (f : UploadFile) : String :=
  match f.mimetype with
  | none => guess_mimetype (some f.filename) none
  | some m => if m = "" then guess_mimetype (some f.filename) none else m

/-- Embedding of `upload_firm_proof` (app.py lines 844-906): reject a
falsy `user_code`, a missing file, or a whitespace-only filename with 400;
reject with 400 (`"Proof already uploaded for this firm"`) when a row with
this `user_code` already exists (`FirmProof.query.filter_by(user_code=...)
.first()`); otherwise insert a row carrying the original filename, the
sanitized `file_path`, the mime type and the payload. -/
def upload_firm_proof (s : FPStore) (user_code : Option String)
    (file : Option UploadFile) : UploadResult × FPStore :=
  match user_code with
  | none => (.badRequest "user_code is required", s)
  | some uc =>
    if uc = "" then (.badRequest "user_code is required", s)
    else
      match file with
      | none => (.badRequest "No file uploaded", s)
      | some f =>
        if pyStripWs f.filename = "" then (.badRequest "Filename missing", s)
        else
          match s.rows.find? (fun p => p.2.user_code == uc) with
          | some _ => (.badRequest "Proof already uploaded for this firm", s)
          | none =>
            let row : FirmProofRec :=
              ⟨uc, some f.filename, secure_filename f.filename, some (firmProofMime f), f.bytes⟩
            (.created s.nextId, ⟨(s.nextId, row) :: s.rows, s.nextId + 1⟩)

/-! ## Claims -/

/-- Claim C1: for every valid upload (non-empty owner key, an original
filename, a byte payload), storing through `upload_cv` succeeds with a new
row id, and fetching that id through `serve_cv` yields bytes byte-identical
to the uploaded payload. -/
theorem C1_store_fetch_roundtrip (s : CVStore) (uc : String) (f : UploadFile)
    (huc : uc ≠ "") (hfn : f.filename ≠ "") :
    ∃ i, (upload_cv s (some uc) (some f) true).1 = .created i ∧
      ∃ mt a dn, serve_cv (upload_cv s (some uc) (some f) true).2 i = .file f.bytes mt a dn := by
  refine ⟨s.nextId, ?_, ?_⟩
  · simp [upload_cv, huc, hfn]
  · exact ⟨guess_mimetype (some (secure_filename f.filename)) none, true,
      some (secure_filename f.filename),
      by simp [upload_cv, serve_cv, cvLookup, huc, hfn, List.find?]⟩

/-- Witness for C1 at a concrete upload. -/
theorem C1_store_fetch_roundtrip_w :
    ∃ i, (upload_cv ⟨[], 0⟩ (some "stu001") (some ⟨"My Resume.pdf", none, [37, 80, 68, 70]⟩) true).1
          = .created i ∧
      ∃ mt a dn,
        serve_cv (upload_cv ⟨[], 0⟩ (some "stu001") (some ⟨"My Resume.pdf", none, [37, 80, 68, 70]⟩) true).2 i
          = .file [37, 80, 68, 70] mt a dn :=
  C1_store_fetch_roundtrip ⟨[], 0⟩ "stu001" ⟨"My Resume.pdf", none, [37, 80, 68, 70]⟩
    (by decide) (by decide)

/-- Claim C4 counterexample: `safe_filename` returns the empty string, not
the token `"uploaded_file"`, on a fully-unsafe name, on the empty string
and on an absent argument. -/
theorem C4_counterexample :
    safe_filename (.str "???..") = "" ∧
    safe_filename (.str "???..") ≠ "uploaded_file" ∧
    safe_filename (.str "") = "" ∧
    safe_filename .absent = "" := by
  refine ⟨by decide, by decide, by decide, by decide⟩

/-- Claim C4 amended: for every raw filename whose sanitization result is
empty (absent, empty, or only unsafe characters), `safe_filename` returns
the empty string — not a fallback token; it is a total function, so it
never throws. -/
theorem C4_empty_sanitization (a : FileArg) (h : secure_filename a.name = "") :
    safe_filename a = "" := by
  cases a with
  | absent => rfl
  | str s =>
    simp only [FileArg.name] at h
    simp [safe_filename, h]
  | fileObj f =>
    simp only [FileArg.name] at h
    simp [safe_filename, h]

/-- Witness for the amended C4 at a concrete fully-unsafe name. -/
theorem C4_empty_sanitization_w : safe_filename (.str "???..") = "" :=
  C4_empty_sanitization (.str "???..") (by decide)

/-- Claim C5: deleting a CV row and then fetching the same id yields
NotFound, for every store and every id. -/
theorem C5_delete_then_fetch (s : CVStore) (i : Nat) :
    serve_cv (delete_cv s i).2 i = .notFound := by
  have hnone : ∀ rows : List (Nat × UserCVRec),
      (rows.filter (fun p => p.1 != i)).find? (fun p => p.1 == i) = none := by
    intro rows
    rw [List.find?_eq_none]
    intro x hx
    have hmem := List.mem_filter.mp hx
    simpa using hmem.2
  unfold delete_cv
  cases h : cvLookup s i with
  | none => simp [serve_cv, h]
  | some doc => simp [serve_cv, cvLookup, hnone]

/-- Claim C7: when the underlying write/commit fails, `upload_cv` returns
the 500 error to the caller (never swallowed) and the store is unchanged —
no metadata row is committed for the failed write. -/
theorem C7_write_failure_rollback (s : CVStore) (uc : String) (f : UploadFile)
    (huc : uc ≠ "") (hfn : f.filename ≠ "") :
    upload_cv s (some uc) (some f) false = (.serverError, s) := by
  simp [upload_cv, huc, hfn]

/-- Witness for C7 at a concrete failed upload. -/
theorem C7_write_failure_rollback_w :
    upload_cv ⟨[], 0⟩ (some "stu001") (some ⟨"cv.pdf", none, [1, 2, 3]⟩) false
      = (.serverError, ⟨[], 0⟩) :=
  C7_write_failure_rollback ⟨[], 0⟩ "stu001" ⟨"cv.pdf", none, [1, 2, 3]⟩
    (by decide) (by decide)

/-- Claim C2 counterexample: a handle containing a `../` segment does not
make the read fail with `InvalidPath`: when a stored row's `file_path`
LIKE-matches the traversal-laden filename, `serve_image` serves its bytes
(HTTP 200), and when nothing matches it returns NotFound (404) — in
neither case an `InvalidPath` error. -/
theorem C2_counterexample :
    serve_image [⟨"u1", "pics/../avatar.jpg", [7, 7, 7]⟩] "u1" "../avatar.jpg"
      = .ok [7, 7, 7] "image/jpeg" ∧
    serve_image ([] : List FirmImageRec) "u1" "../avatar.jpg" = .notFound := by
  refine ⟨by decide, by decide⟩

/-- Claim C2 amended: `serve_image` performs no path validation at all —
for every handle, including ones with `../` segments or absolute-path
prefixes, it never fails with `InvalidPath`; it returns NotFound when no
row of the owner LIKE-matches the filename, and the matching row's bytes
when one does (storage is a database blob column, so no filesystem path
is ever resolved). -/
theorem C2_no_path_validation (db : List FirmImageRec) (uc fn : String) :
    serve_image db uc fn ≠ .invalidPath ∧
    (serve_image db uc fn = .notFound ∨
      ∃ r ∈ db, r.user_code = uc ∧ serve_image db uc fn = .ok r.image_data "image/jpeg") := by
  unfold serve_image
  cases h : db.find? (imageMatches uc fn) with
  | none => simp
  | some r =>
    refine ⟨by simp, Or.inr ⟨r, List.mem_of_find?_eq_some h, ?_, rfl⟩⟩
    have hp := List.find?_some h
    simp only [imageMatches, Bool.and_eq_true, beq_iff_eq] at hp
    exact hp.1

/-- Claim C3 counterexample: two single-image uploads by the same owner in
immediate succession return the very same handle
`wil-firm-pics/u1/image_1.jpg` — the handles are not distinct, because the
index restarts at 1 on every request. -/
theorem C3_counterexample :
    (upload_images [] (some "u1") [[1]]).1 = .ok ["wil-firm-pics/u1/image_1.jpg"] ∧
    (upload_images (upload_images [] (some "u1") [[1]]).2 (some "u1") [[2]]).1
      = .ok ["wil-firm-pics/u1/image_1.jpg"] := by
  refine ⟨by decide, by decide⟩

/-- Claim C3 amended: two uploads by the same owner in rapid succession
produce the SAME handle (`image_1.jpg`, since the per-request index
restarts at 1); the two payloads are nevertheless both retained as
distinct database rows — neither upload's bytes are overwritten, but the
collided handle no longer identifies a unique artifact. -/
theorem C3_colliding_handles (db : List FirmImageRec) (uc : String) (d1 d2 : Bytes)
    (huc : uc ≠ "") :
    (upload_images db (some uc) [d1]).1 = .ok [imagePath uc 1] ∧
    (upload_images (upload_images db (some uc) [d1]).2 (some uc) [d2]).1
      = .ok [imagePath uc 1] ∧
    (⟨uc, imagePath uc 1, d1⟩ : FirmImageRec)
      ∈ (upload_images (upload_images db (some uc) [d1]).2 (some uc) [d2]).2 ∧
    (⟨uc, imagePath uc 1, d2⟩ : FirmImageRec)
      ∈ (upload_images (upload_images db (some uc) [d1]).2 (some uc) [d2]).2 := by
  simp [upload_images, imageRecords, huc]

/-- Witness for the amended C3 at a concrete pair of uploads. -/
theorem C3_colliding_handles_w :
    (upload_images [] (some "u1") [[1]]).1 = .ok [imagePath "u1" 1] ∧
    (upload_images (upload_images [] (some "u1") [[1]]).2 (some "u1") [[2]]).1
      = .ok [imagePath "u1" 1] ∧
    (⟨"u1", imagePath "u1" 1, [1]⟩ : FirmImageRec)
      ∈ (upload_images (upload_images [] (some "u1") [[1]]).2 (some "u1") [[2]]).2 ∧
    (⟨"u1", imagePath "u1" 1, [2]⟩ : FirmImageRec)
      ∈ (upload_images (upload_images [] (some "u1") [[1]]).2 (some "u1") [[2]]).2 :=
  C3_colliding_handles [] "u1" [1] [2] (by decide)

/-- Claim C6: owner keys partition the image storage — every row read by
`get_images` for owner `a` belongs to `a` (never to a distinct owner `b`),
and any bytes served by `serve_image` for owner `a` come from a row owned
by `a`. -/
theorem C6_owner_partition (db : List FirmImageRec) (a b fn : String) (hab : a ≠ b) :
    (∀ r ∈ get_images_rows db a, r.user_code = a ∧ r.user_code ≠ b) ∧
    (∀ bytes mt, serve_image db a fn = .ok bytes mt →
      ∃ r ∈ db, r.user_code = a ∧ r.user_code ≠ b ∧ r.image_data = bytes) := by
  constructor
  · intro r hr
    have hmem := List.mem_filter.mp hr
    have heq : r.user_code = a := by simpa using hmem.2
    exact ⟨heq, by rw [heq]; exact hab⟩
  · intro bytes mt h
    unfold serve_image at h
    cases hf : db.find? (imageMatches a fn) with
    | none => rw [hf] at h; cases h
    | some r =>
      rw [hf] at h
      simp only [ImageResult.ok.injEq] at h
      have hp := List.find?_some hf
      simp only [imageMatches, Bool.and_eq_true, beq_iff_eq] at hp
      exact ⟨r, List.mem_of_find?_eq_some hf, hp.1, by rw [hp.1]; exact hab, h.1⟩

/-- Witness for C6 at a concrete store and pair of owners. -/
theorem C6_owner_partition_w :
    (∀ r ∈ get_images_rows [⟨"a", "wil-firm-pics/a/image_1.jpg", [9]⟩] "a",
      r.user_code = "a" ∧ r.user_code ≠ "b") ∧
    (∀ bytes mt,
      serve_image [⟨"a", "wil-firm-pics/a/image_1.jpg", [9]⟩] "a" "image_1.jpg" = .ok bytes mt →
      ∃ r ∈ [(⟨"a", "wil-firm-pics/a/image_1.jpg", [9]⟩ : FirmImageRec)],
        r.user_code = "a" ∧ r.user_code ≠ "b" ∧ r.image_data = bytes) :=
  C6_owner_partition [⟨"a", "wil-firm-pics/a/image_1.jpg", [9]⟩] "a" "b" "image_1.jpg"
    (by decide)

/-- Claim C8: in `view_submission`, the response is served inline
(`as_attachment = false`) exactly when the inferred mime type is in the
fixed `viewable_types` policy list; every other mime type forces an
attachment. -/
theorem C8_disposition_policy (db : List (Nat × SubmissionRec)) (i : Nat)
    (bytes : Bytes) (mt : String) (att : Bool) (dn : Option String)
    (h : view_submission db i = .file bytes mt att dn) :
    att = false ↔ mt ∈ viewable_types := by
  unfold view_submission at h
  split at h
  · exact ServeResult.noConfusion h
  · split at h
    · exact ServeResult.noConfusion h
    · simp only [ServeResult.file.injEq] at h
      obtain ⟨hb, hmt, hatt, hdn⟩ := h
      subst hmt
      subst hatt
      simp [List.contains]

/-- Witness for C8 at a concrete pdf submission (served inline). -/
theorem C8_disposition_policy_w :
    false = false ↔ "application/pdf" ∈ viewable_types :=
  C8_disposition_policy [(1, ⟨"a1", "u1", some "essay.pdf", some [1]⟩)] 1
    [1] "application/pdf" false (some "essay.pdf") (by decide)

/-- Claim C9: a metadata row whose payload is NULL or the empty byte
string yields NotFound from all three serve endpoints, even though the
row itself exists. -/
theorem C9_empty_payload_notFound
    (subs : List (Nat × SubmissionRec)) (i : Nat) (sub : SubmissionRec)
    (asgs : List (String × AssignmentRec)) (aid : String) (a : AssignmentRec)
    (hs : subLookup subs i = some sub)
    (hsd : sub.file_data = none ∨ sub.file_data = some [])
    (ha : asgLookup asgs aid = some a)
    (had : a.file_data = none ∨ a.file_data = some []) :
    view_submission subs i = .notFound ∧
    serve_submission_file subs i = .notFound ∧
    serve_assignment_file asgs aid = .notFound := by
  have hd1 : dataFalsy sub.file_data = true := by
    rcases hsd with h | h <;> simp [dataFalsy, h]
  have hd2 : dataFalsy a.file_data = true := by
    rcases had with h | h <;> simp [dataFalsy, h]
  refine ⟨?_, ?_, ?_⟩ <;>
    simp [view_submission, serve_submission_file, serve_assignment_file, hs, ha, hd1, hd2]

/-- Witness for C9 at a concrete empty-payload submission and a concrete
null-payload assignment. -/
theorem C9_empty_payload_notFound_w :
    view_submission [(1, ⟨"a1", "u1", some "f.pdf", some []⟩)] 1 = .notFound ∧
    serve_submission_file [(1, ⟨"a1", "u1", some "f.pdf", some []⟩)] 1 = .notFound ∧
    serve_assignment_file [("a1", ⟨"L1", "T1", some "g.pdf", none⟩)] "a1" = .notFound :=
  C9_empty_payload_notFound [(1, ⟨"a1", "u1", some "f.pdf", some []⟩)] 1
    ⟨"a1", "u1", some "f.pdf", some []⟩
    [("a1", ⟨"L1", "T1", some "g.pdf", none⟩)] "a1" ⟨"L1", "T1", some "g.pdf", none⟩
    (by decide) (Or.inr rfl) (by decide) (Or.inl rfl)

/-- Claim C10: at most one firm-proof row exists per owner key — an upload
for an owner that already has a row is rejected with the duplicate error
and leaves the store (bytes and metadata) unchanged, and any upload
preserves the at-most-one-row-per-owner invariant. -/
theorem C10_unique_proof_per_owner (s : FPStore) (uc : String) (f : UploadFile)
    (huc : uc ≠ "") (hfn : pyStripWs f.filename ≠ "") :
    ((∃ p ∈ s.rows, p.2.user_code = uc) →
      upload_firm_proof s (some uc) (some f)
        = (.badRequest "Proof already uploaded for this firm", s)) ∧
    (s.rows.Pairwise (fun p q => p.2.user_code ≠ q.2.user_code) →
      (upload_firm_proof s (some uc) (some f)).2.rows.Pairwise
        (fun p q => p.2.user_code ≠ q.2.user_code)) := by
  constructor
  · rintro ⟨p, hp, hpe⟩
    cases hf : s.rows.find? (fun q => q.2.user_code == uc) with
    | none =>
      have := List.find?_eq_none.mp hf p hp
      simp [hpe] at this
    | some q => simp [upload_firm_proof, huc, hfn, hf]
  · intro hpw
    cases hf : s.rows.find? (fun q => q.2.user_code == uc) with
    | some q => simpa [upload_firm_proof, huc, hfn, hf] using hpw
    | none =>
      have hfresh : ∀ q ∈ s.rows, uc ≠ q.2.user_code := by
        intro q hq he
        have := List.find?_eq_none.mp hf q hq
        simp [he] at this
      have hstep : (upload_firm_proof s (some uc) (some f)).2.rows
          = (s.nextId, ⟨uc, some f.filename, secure_filename f.filename,
              some (firmProofMime f), f.bytes⟩) :: s.rows := by
        simp [upload_firm_proof, huc, hfn, hf]
      rw [hstep]
      exact List.Pairwise.cons (fun q hq => hfresh q hq) hpw

/-- Witness for C10 at a concrete one-row store and duplicate upload. -/
theorem C10_unique_proof_per_owner_w :
    ((∃ p ∈ ([(0, ⟨"u1", some "p.pdf", "p.pdf", some "application/pdf", [1]⟩)] :
        List (Nat × FirmProofRec)), p.2.user_code = "u1") →
      upload_firm_proof ⟨[(0, ⟨"u1", some "p.pdf", "p.pdf", some "application/pdf", [1]⟩)], 1⟩
          (some "u1") (some ⟨"q.pdf", none, [2]⟩)
        = (.badRequest "Proof already uploaded for this firm",
           ⟨[(0, ⟨"u1", some "p.pdf", "p.pdf", some "application/pdf", [1]⟩)], 1⟩)) ∧
    (([(0, ⟨"u1", some "p.pdf", "p.pdf", some "application/pdf", [1]⟩)] :
        List (Nat × FirmProofRec)).Pairwise (fun p q => p.2.user_code ≠ q.2.user_code) →
      (upload_firm_proof ⟨[(0, ⟨"u1", some "p.pdf", "p.pdf", some "application/pdf", [1]⟩)], 1⟩
          (some "u1") (some ⟨"q.pdf", none, [2]⟩)).2.rows.Pairwise
        (fun p q => p.2.user_code ≠ q.2.user_code)) :=
  C10_unique_proof_per_owner ⟨[(0, ⟨"u1", some "p.pdf", "p.pdf", some "application/pdf", [1]⟩)], 1⟩
    "u1" ⟨"q.pdf", none, [2]⟩ (by decide) (by decide)

end Vincent
